import Mathlib

/-
Verification of the curve-fitting specification for the SciPy tutorial notebook
(src/Tutorial_7/SciPy1.ipynb).

The notebook itself contains only the model functions `lin_func` and `quad_func`
and calls to `scipy.optimize.curve_fit`; the fitting routine is not part of the
repository source.  Following the specification (spec.md section 4.1), the
Levenberg-Marquardt fitting routine `fit` below is modelled from the spec over
exact rational arithmetic: residuals and RSS, finite-difference Jacobian,
damped normal equations solved by Gaussian elimination, accept/reject damping
schedule, iteration cap, and covariance estimation sigma^2 * (J^T J)^-1 with a
singularity check.
-/

/-- The linear model from the notebook: `lin_func(x, m, c) = m*x + c`. -/
def lin_func (x m c : ℚ) : ℚ := m * x + c

/-- The quadratic model from the notebook: `quad_func(x, a, b, c) = a*x**2 + b*x + c`. -/
def quad_func (x a b c : ℚ) : ℚ := a * x ^ 2 + b * x + c

/-- Dot product of two rational vectors. -/
def dotL (u v : List ℚ) : ℚ := (List.zipWith (fun a b => a * b) u v).sum

/-- Componentwise sum of two rational vectors. -/
def addVec (u v : List ℚ) : List ℚ := List.zipWith (fun a b => a + b) u v

/-- Componentwise negation. -/
def negVec (u : List ℚ) : List ℚ := u.map (fun a => -a)

/-- Entry (j,k) of a matrix stored as a list of rows (0 outside the stored area). -/
def entryQ (M : List (List ℚ)) (j k : Nat) : ℚ := (M.getD j []).getD k 0

/-- Modelled from the spec: residual vector `r_i = model(x_i, params) - y_i`. -/
def residuals (model : ℚ → List ℚ → ℚ) (xs ys p : List ℚ) : List ℚ :=
  List.zipWith (fun x y => model x p - y) xs ys

/-- Modelled from the spec: residual sum of squares at a parameter vector. -/
def rss (model : ℚ → List ℚ → ℚ) (xs ys p : List ℚ) : ℚ :=
  ((residuals model xs ys p).map (fun r => r * r)).sum

/-- Modelled from the spec: finite-difference step `eps * max(|param|, 1)`. -/
def fdStep (eps pj : ℚ) : ℚ := eps * max |pj| 1

/-- Modelled from the spec: one row of the finite-difference Jacobian, the partial
derivatives of the residual at sample `x` with respect to each parameter. -/
def jacobianRow (model : ℚ → List ℚ → ℚ) (eps : ℚ) (p : List ℚ) (x : ℚ) : List ℚ :=
  (List.range p.length).map (fun j =>
    (model x (p.set j (p.getD j 0 + fdStep eps (p.getD j 0))) - model x p) / fdStep eps (p.getD j 0))

/-- Modelled from the spec: the `N x P` finite-difference Jacobian. -/
def jacobian (model : ℚ → List ℚ → ℚ) (eps : ℚ) (xs p : List ℚ) : List (List ℚ) :=
  xs.map (fun x => jacobianRow model eps p x)

/-- The `P x P` zero matrix as a list of rows. -/
def zeroMat (P : Nat) : List (List ℚ) :=
  (List.range P).map (fun _ => (List.range P).map (fun _ => (0 : ℚ)))

/-- Outer product of a Jacobian row with itself, as a `P x P` matrix. -/
def outerM (P : Nat) (row : List ℚ) : List (List ℚ) :=
  (List.range P).map (fun j => (List.range P).map (fun k => row.getD j 0 * row.getD k 0))

/-- Entrywise sum of two `P x P` matrices. -/
def matAdd (P : Nat) (X Y : List (List ℚ)) : List (List ℚ) :=
  (List.range P).map (fun j => (List.range P).map (fun k => entryQ X j k + entryQ Y j k))

/-- Modelled from the spec: the normal-equation matrix `J^T J`, accumulated as the
sum of the outer products of the Jacobian rows. -/
def ata (P : Nat) (J : List (List ℚ)) : List (List ℚ) :=
  J.foldr (fun row acc => matAdd P (outerM P row) acc) (zeroMat P)

/-- Modelled from the spec: the right-hand-side vector `J^T r`. -/
def atr (P : Nat) (J : List (List ℚ)) (r : List ℚ) : List ℚ :=
  (List.range P).map (fun j => (List.zipWith (fun row ri => row.getD j 0 * ri) J r).sum)

/-- Modelled from the spec: the damped matrix `A + lam * diag(A)`. -/
def dampen (P : Nat) (A : List (List ℚ)) (lam : ℚ) : List (List ℚ) :=
  (List.range P).map (fun j => (List.range P).map (fun k =>
    if j = k then entryQ A j k + lam * entryQ A j k else entryQ A j k))

/-- Find the first row with a nonzero leading coefficient; return it together
with the remaining rows. -/
def splitPivot : List (List ℚ × ℚ) → Option ((List ℚ × ℚ) × List (List ℚ × ℚ))
  | [] => none
  | row :: rest =>
    if row.1.getD 0 0 ≠ 0 then some (row, rest)
    else match splitPivot rest with
      | none => none
      | some (pv, others) => some (pv, row :: others)

/-- Subtract the right multiple of the pivot row and drop the leading entry. -/
def elimRow (pv row : List ℚ × ℚ) : List ℚ × ℚ :=
  ((List.zipWith (fun a b => a - row.1.getD 0 0 / pv.1.getD 0 0 * b) row.1 pv.1).tail,
    row.2 - row.1.getD 0 0 / pv.1.getD 0 0 * pv.2)

/-- Gaussian elimination with back substitution on rows `(coefficients, rhs)`. -/
def gaussSolve : Nat → List (List ℚ × ℚ) → Option (List ℚ)
  | 0, _ => some []
  | n + 1, rows =>
    match splitPivot rows with
    | none => none
    | some (pv, others) =>
      match gaussSolve n (others.map (elimRow pv)) with
      | none => none
      | some xs => some ((pv.2 - dotL pv.1.tail xs) / pv.1.getD 0 0 :: xs)

/-- Modelled from the spec: linear solve of the `P x P` system `M d = b`. -/
def solveLinear (P : Nat) (M : List (List ℚ)) (b : List ℚ) : Option (List ℚ) :=
  gaussSolve P ((List.range P).map (fun j => (M.getD j [], b.getD j 0)))

/-- Modelled from the spec: configuration of the fitter (tolerance, iteration cap,
initial damping, damping upper bound, finite-difference step size). -/
structure FitConfig where
  tol : ℚ
  maxIter : Nat
  lam0 : ℚ
  lamMax : ℚ
  eps : ℚ

/-- The spec's conventional defaults: tolerance `1e-8`, `1000` iterations,
initial damping `1e-3`, damping bound `1e12`, finite-difference step `1e-6`. -/
def defaultConfig : FitConfig :=
  ⟨1 / 100000000, 1000, 1 / 1000, 1000000000000, 1 / 1000000⟩

/-- State of the Levenberg-Marquardt iteration: current parameter vector and
current damping factor. -/
structure LMState where
  p : List ℚ
  lam : ℚ

/-- Modelled from the spec: the candidate step, solving
`(J^T J + lam * diag(J^T J)) d = -J^T r`. -/
def proposeStep (model : ℚ → List ℚ → ℚ) (xs ys : List ℚ) (P : Nat) (eps : ℚ)
    (st : LMState) : Option (List ℚ) :=
  solveLinear P (dampen P (ata P (jacobian model eps xs st.p)) st.lam)
    (negVec (atr P (jacobian model eps xs st.p) (residuals model xs ys st.p)))

/-- Modelled from the spec: one Levenberg-Marquardt iteration.  If the candidate
step decreases the RSS it is accepted and the damping is divided by 10, else it
is rejected, the parameters stay, and the damping is multiplied by 10.  The
boolean is the stop signal: relative RSS decrease below the tolerance after an
accepted step, or damping exceeding its upper bound after a rejected step. -/
def lmIter (model : ℚ → List ℚ → ℚ) (xs ys : List ℚ) (P : Nat) (tol lamMax eps : ℚ)
    (st : LMState) : LMState × Bool :=
  match proposeStep model xs ys P eps st with
  | none => (⟨st.p, st.lam * 10⟩, if lamMax < st.lam * 10 then true else false)
  | some d =>
    if rss model xs ys (addVec st.p d) < rss model xs ys st.p then
      (⟨addVec st.p d, st.lam / 10⟩,
        if rss model xs ys st.p - rss model xs ys (addVec st.p d) ≤ tol * rss model xs ys st.p
        then true else false)
    else (⟨st.p, st.lam * 10⟩, if lamMax < st.lam * 10 then true else false)

/-- Outcome of the iteration loop: converged at a parameter vector, or the
iteration cap was exhausted at a parameter vector. -/
inductive LoopRes where
  | converged : List ℚ → LoopRes
  | maxIter : List ℚ → LoopRes

/-- Modelled from the spec: the iteration loop, running `lmIter` until a stop
condition holds or the fuel (the iteration cap) is exhausted. -/
def loopGo (model : ℚ → List ℚ → ℚ) (xs ys : List ℚ) (P : Nat) (tol lamMax eps : ℚ) :
    Nat → LMState → LoopRes
  | 0, st => .maxIter st.p
  | n + 1, st =>
    if (lmIter model xs ys P tol lamMax eps st).2 then
      .converged (lmIter model xs ys P tol lamMax eps st).1.p
    else loopGo model xs ys P tol lamMax eps n (lmIter model xs ys P tol lamMax eps st).1

/-- The parameter vectors the loop visits (ghost trace mirroring `loopGo`). -/
def visitedP (model : ℚ → List ℚ → ℚ) (xs ys : List ℚ) (P : Nat) (tol lamMax eps : ℚ) :
    Nat → LMState → List (List ℚ)
  | 0, st => [st.p]
  | n + 1, st =>
    if (lmIter model xs ys P tol lamMax eps st).2 then
      [st.p, (lmIter model xs ys P tol lamMax eps st).1.p]
    else st.p :: visitedP model xs ys P tol lamMax eps n (lmIter model xs ys P tol lamMax eps st).1

/-- The parameter vector carried by a loop outcome. -/
def resParams : LoopRes → List ℚ
  | .converged p => p
  | .maxIter p => p

/-- Modelled from the spec: the error taxonomy.  `nonFiniteEvaluation` is listed
for completeness; over exact rationals every model evaluation is finite, so the
modelled routine never produces it. -/
inductive FitError where
  | insufficientData : Nat → Nat → FitError
  | nonFiniteEvaluation : Nat → FitError
  | convergenceError : List ℚ → ℚ → FitError
  | singularJacobian : List ℚ → FitError

/-- Result of a fit: optimal parameters with covariance, or an error. -/
inductive FitResult where
  | ok : List ℚ → List (List ℚ) → FitResult
  | err : FitError → FitResult

/-- `M` agrees with the `P x P` identity matrix on all stored entries. -/
def matIsId (P : Nat) (M : List (List ℚ)) : Prop :=
  ∀ j, j < P → ∀ k, k < P → entryQ M j k = if j = k then 1 else 0

instance (P : Nat) (M : List (List ℚ)) : Decidable (matIsId P M) := by
  unfold matIsId; exact inferInstance

/-- The `j`-th standard basis vector of length `P`. -/
def unitVec (P j : Nat) : List ℚ := (List.range P).map (fun k => if k = j then 1 else 0)

/-- Candidate inverse of `A`, built by solving `A x = e_j` for each column. -/
def invertCand (P : Nat) (A : List (List ℚ)) : List (List ℚ) :=
  (List.range P).map (fun j => (List.range P).map (fun k =>
    ((solveLinear P A (unitVec P k)).getD []).getD j 0))

/-- Product of two `P x P` matrices stored as lists of rows. -/
def matMul (P : Nat) (X Y : List (List ℚ)) : List (List ℚ) :=
  (List.range P).map (fun j => (List.range P).map (fun k =>
    ((List.range P).map (fun l => entryQ X j l * entryQ Y l k)).sum))

/-- Scalar multiple of a `P x P` matrix. -/
def matScale (P : Nat) (s : ℚ) (B : List (List ℚ)) : List (List ℚ) :=
  (List.range P).map (fun j => (List.range P).map (fun k => s * entryQ B j k))

/-- Modelled from the spec: the covariance step at the accepted parameter vector.
Fails with `insufficientData` when `N <= P` (the residual variance
`RSS/(N-P)` is undefined), with `singularJacobian` when the candidate inverse of
`J^T J` does not verify against the identity, and otherwise returns the
parameters with covariance `sigma^2 * (J^T J)^-1`. -/
def covStep (model : ℚ → List ℚ → ℚ) (xs ys : List ℚ) (P : Nat) (eps : ℚ)
    (q : List ℚ) : FitResult :=
  if xs.length ≤ P then .err (.insufficientData xs.length P)
  else
    if matIsId P (matMul P (ata P (jacobian model eps xs q))
          (invertCand P (ata P (jacobian model eps xs q)))) ∧
        matIsId P (matMul P (invertCand P (ata P (jacobian model eps xs q)))
          (ata P (jacobian model eps xs q))) then
      .ok q (matScale P (rss model xs ys q / ((xs.length : ℚ) - (P : ℚ)))
        (invertCand P (ata P (jacobian model eps xs q))))
    else .err (.singularJacobian q)

/-- Modelled from the spec: the initial iteration state; an omitted initial
guess defaults to the all-ones vector of length `P`. -/
def initState (P : Nat) (init : Option (List ℚ)) (lam0 : ℚ) : LMState :=
  ⟨init.getD (List.replicate P 1), lam0⟩

/-- Modelled from the spec: the full fit routine.  Checks `N < P` up front,
runs the Levenberg-Marquardt loop, and on convergence runs the covariance step;
when the iteration cap is exhausted it fails with `convergenceError` carrying
the best parameter vector found and its RSS. -/
def fit (model : ℚ → List ℚ → ℚ) (xs ys : List ℚ) (P : Nat) (init : Option (List ℚ))
    (cfg : FitConfig) : FitResult :=
  if xs.length < P then .err (.insufficientData xs.length P)
  else
    match loopGo model xs ys P cfg.tol cfg.lamMax cfg.eps cfg.maxIter
        (initState P init cfg.lam0) with
    | .maxIter q => .err (.convergenceError q (rss model xs ys q))
    | .converged q => covStep model xs ys P cfg.eps q

/-- The parameter vector a fit outcome reports: the optimum on success, the
best-effort parameters attached to `convergenceError` and `singularJacobian`. -/
def reported : FitResult → Option (List ℚ)
  | .ok q _ => some q
  | .err (.convergenceError q _) => some q
  | .err (.singularJacobian q) => some q
  | .err (.insufficientData _ _) => none
  | .err (.nonFiniteEvaluation _) => none

/-- Whether a fit outcome is a success. -/
def isOk : FitResult → Bool
  | .ok _ _ => true
  | .err _ => false

/-- The notebook's linear model in uncurried form, reading `m` and `c` from a
parameter vector. -/
def linM : ℚ → List ℚ → ℚ := fun x p => lin_func x (p.getD 0 0) (p.getD 1 0)

/-- A one-parameter model `y = p^2 * x`, quadratic in its parameter; used to
exhibit a model with two exact parameter vectors. -/
def sqxM : ℚ → List ℚ → ℚ := fun x p => (p.getD 0 0) ^ 2 * x

/-- The sample inputs of the spec's concrete scenario. -/
def X4 : List ℚ := [0, 1, 2, 3]

/-- The sample outputs of the spec's concrete scenario, on the line `1.2*x + 1.5`. -/
def Y4 : List ℚ := [3 / 2, 27 / 10, 39 / 10, 51 / 10]

/-- A configuration identical to the default except with iteration cap 1. -/
def cfgOne : FitConfig := ⟨1 / 100000000, 1, 1 / 1000, 1000000000000, 1 / 1000000⟩

/-- Interpretation of a list-of-rows matrix as a Mathlib matrix on `Fin P`. -/
def toMat (P : Nat) (M : List (List ℚ)) : Matrix (Fin P) (Fin P) ℚ :=
  Matrix.of (fun i j => entryQ M i j)

/-- A sample vector used to instantiate quadratic-form statements. -/
def vOne : Fin 1 → ℚ := fun _ => 2

/-- Unfolding equation for one step of the loop. -/
theorem loopGo_succ (model : ℚ → List ℚ → ℚ) (xs ys : List ℚ) (P : Nat)
    (tol lamMax eps : ℚ) (n : Nat) (st : LMState) :
    loopGo model xs ys P tol lamMax eps (n + 1) st =
      if (lmIter model xs ys P tol lamMax eps st).2 then
        .converged (lmIter model xs ys P tol lamMax eps st).1.p
      else loopGo model xs ys P tol lamMax eps n (lmIter model xs ys P tol lamMax eps st).1 := rfl

/-- One iteration never increases the RSS of the current parameter vector. -/
theorem lmIter_rss_le (model : ℚ → List ℚ → ℚ) (xs ys : List ℚ) (P : Nat)
    (tol lamMax eps : ℚ) (st : LMState) :
    rss model xs ys (lmIter model xs ys P tol lamMax eps st).1.p ≤ rss model xs ys st.p := by
  unfold lmIter
  cases h : proposeStep model xs ys P eps st with
  | none => exact le_refl _
  | some d =>
    dsimp only
    split
    · exact le_of_lt (by assumption)
    · exact le_refl _

/-- The RSS of the loop's final parameter vector is at most the RSS of the
starting parameter vector. -/
theorem loopGo_rss_le (model : ℚ → List ℚ → ℚ) (xs ys : List ℚ) (P : Nat)
    (tol lamMax eps : ℚ) : ∀ (n : Nat) (st : LMState),
    rss model xs ys (resParams (loopGo model xs ys P tol lamMax eps n st)) ≤
      rss model xs ys st.p := by
  intro n
  induction n with
  | zero => intro st; exact le_refl _
  | succ n ih =>
    intro st
    rw [loopGo_succ]
    by_cases hb : (lmIter model xs ys P tol lamMax eps st).2
    · rw [if_pos hb]
      exact lmIter_rss_le model xs ys P tol lamMax eps st
    · rw [if_neg hb]
      exact le_trans (ih (lmIter model xs ys P tol lamMax eps st).1)
        (lmIter_rss_le model xs ys P tol lamMax eps st)

/-- The loop's final parameter vector has the smallest RSS among all parameter
vectors visited. -/
theorem loopGo_best (model : ℚ → List ℚ → ℚ) (xs ys : List ℚ) (P : Nat)
    (tol lamMax eps : ℚ) : ∀ (n : Nat) (st : LMState) (q : List ℚ),
    q ∈ visitedP model xs ys P tol lamMax eps n st →
    rss model xs ys (resParams (loopGo model xs ys P tol lamMax eps n st)) ≤
      rss model xs ys q := by
  intro n
  induction n with
  | zero =>
    intro st q hq
    have h := List.mem_singleton.mp hq
    show rss model xs ys st.p ≤ rss model xs ys q
    rw [h]
  | succ n ih =>
    intro st q hq
    rw [loopGo_succ]
    unfold visitedP at hq
    by_cases hb : (lmIter model xs ys P tol lamMax eps st).2
    · rw [if_pos hb]
      rw [if_pos hb] at hq
      simp only [List.mem_cons, List.mem_singleton, List.not_mem_nil, or_false] at hq
      rcases hq with hq | hq
      · exact hq ▸ lmIter_rss_le model xs ys P tol lamMax eps st
      · exact hq ▸ le_refl _
    · rw [if_neg hb]
      rw [if_neg hb] at hq
      simp only [List.mem_cons] at hq
      rcases hq with hq | hq
      · exact hq ▸ le_trans (loopGo_rss_le model xs ys P tol lamMax eps n _)
          (lmIter_rss_le model xs ys P tol lamMax eps st)
      · exact ih _ q hq

/-- When both length prechecks pass, the fit reports exactly the loop's final
parameter vector, whatever the outcome (success, convergence failure, or
singular Jacobian). -/
theorem reported_fit (model : ℚ → List ℚ → ℚ) (xs ys : List ℚ) (P : Nat)
    (init : Option (List ℚ)) (cfg : FitConfig)
    (h1 : ¬ xs.length < P) (h2 : ¬ xs.length ≤ P) :
    reported (fit model xs ys P init cfg) =
      some (resParams (loopGo model xs ys P cfg.tol cfg.lamMax cfg.eps cfg.maxIter
        (initState P init cfg.lam0))) := by
  unfold fit
  rw [if_neg h1]
  cases hL : loopGo model xs ys P cfg.tol cfg.lamMax cfg.eps cfg.maxIter
      (initState P init cfg.lam0) with
  | maxIter q => rfl
  | converged q =>
    dsimp only
    unfold covStep
    rw [if_neg h2]
    split
    · rfl
    · rfl

/-- With exactly as many samples as parameters the covariance step always fails,
so a fit with `N = P` never succeeds: it ends in `insufficientData` (on
convergence) or `convergenceError` (at the iteration cap). -/
theorem fit_NP_cases (model : ℚ → List ℚ → ℚ) (xs ys : List ℚ) (P : Nat)
    (init : Option (List ℚ)) (cfg : FitConfig) (h : xs.length = P) :
    fit model xs ys P init cfg = .err (.insufficientData xs.length P) ∨
      ∃ q, fit model xs ys P init cfg = .err (.convergenceError q (rss model xs ys q)) := by
  unfold fit
  rw [if_neg (by omega : ¬ xs.length < P)]
  cases hL : loopGo model xs ys P cfg.tol cfg.lamMax cfg.eps cfg.maxIter
      (initState P init cfg.lam0) with
  | maxIter q => exact Or.inr ⟨q, rfl⟩
  | converged q =>
    dsimp only
    unfold covStep
    rw [if_pos (le_of_eq h)]
    exact Or.inl rfl

/-- The finite-difference step for a parameter at least 1 is just `eps * pj`. -/
theorem fdStep_of_one_le (eps pj : ℚ) (h : 1 ≤ pj) : fdStep eps pj = eps * pj := by
  unfold fdStep
  rw [abs_of_nonneg (le_trans zero_le_one h), max_eq_left h]

/-- Unfolding equation for the exhausted loop. -/
theorem loopGo_zero (model : ℚ → List ℚ → ℚ) (xs ys : List ℚ) (P : Nat)
    (tol lamMax eps : ℚ) (st : LMState) :
    loopGo model xs ys P tol lamMax eps 0 st = .maxIter st.p := rfl

/-- Unfolding equation for one step of the visited-parameters trace. -/
theorem visitedP_succ (model : ℚ → List ℚ → ℚ) (xs ys : List ℚ) (P : Nat)
    (tol lamMax eps : ℚ) (n : Nat) (st : LMState) :
    visitedP model xs ys P tol lamMax eps (n + 1) st =
      if (lmIter model xs ys P tol lamMax eps st).2 then
        [st.p, (lmIter model xs ys P tol lamMax eps st).1.p]
      else st.p :: visitedP model xs ys P tol lamMax eps n
        (lmIter model xs ys P tol lamMax eps st).1 := rfl

set_option maxHeartbeats 4000000 in
/-- First Levenberg-Marquardt iteration on the spec's concrete linear scenario:
the step is accepted, the damping drops to `1e-4`, and no stop condition holds. -/
theorem lmLin1 : lmIter linM X4 Y4 2 (1 / 100000000) 1000000000000 (1 / 1000000)
    ⟨[1, 1], 1 / 1000⟩ =
    (⟨[3016907 / 2514007, 3769607 / 2514007], 1 / 10000⟩, false) := by
  norm_num [lmIter, proposeStep, solveLinear, gaussSolve, splitPivot, elimRow, dotL,
    dampen, ata, matAdd, outerM, zeroMat, entryQ, atr, negVec, jacobian, jacobianRow,
    fdStep_of_one_le, residuals, rss, addVec, X4, Y4, linM, lin_func, List.range_succ,
    decide_eq_false_iff_not, decide_eq_true_eq]

set_option maxHeartbeats 4000000 in
/-- Second Levenberg-Marquardt iteration on the spec's concrete linear scenario:
again accepted, damping drops to `1e-5`, and no stop condition holds. -/
theorem lmLin2 : lmIter linM X4 Y4 2 (1 / 100000000) 1000000000000 (1 / 1000000)
    ⟨[3016907 / 2514007, 3769607 / 2514007], 1 / 10000⟩ =
    (⟨[754624523301349 / 628853728578049, 943280484259249 / 628853728578049],
      1 / 100000⟩, false) := by
  norm_num [lmIter, proposeStep, solveLinear, gaussSolve, splitPivot, elimRow, dotL,
    dampen, ata, matAdd, outerM, zeroMat, entryQ, atr, negVec, jacobian, jacobianRow,
    fdStep_of_one_le, residuals, rss, addVec, X4, Y4, linM, lin_func, List.range_succ,
    decide_eq_false_iff_not, decide_eq_true_eq]

/-- The RSS of the concrete linear scenario as an explicit quadratic form in the
first two entries of the parameter vector. -/
theorem rss_linM_eq (q : List ℚ) :
    rss linM X4 Y4 q =
      (q.getD 1 0 - 3 / 2) ^ 2 + (q.getD 0 0 + q.getD 1 0 - 27 / 10) ^ 2 +
        (2 * q.getD 0 0 + q.getD 1 0 - 39 / 10) ^ 2 +
        (3 * q.getD 0 0 + q.getD 1 0 - 51 / 10) ^ 2 := by
  simp [rss, residuals, X4, Y4, linM, lin_func]
  ring

set_option maxHeartbeats 4000000 in
/-- Iteration 1 of the fit of `sqxM` to its own noise-free data from the
default initial guess: the zero step is rejected and the damping grows. -/
theorem sqStep0 : lmIter sqxM [1, 2] [1, 2] 1 (1 / 100000000) 1000000000000 (1 / 1000000)
    ⟨[1], 1 / 1000⟩ = (⟨[1], 1 / 100⟩, false) := by
  norm_num [lmIter, proposeStep, solveLinear, gaussSolve, splitPivot, elimRow, dotL,
    dampen, ata, matAdd, outerM, zeroMat, entryQ, atr, negVec, jacobian, jacobianRow,
    fdStep_of_one_le, residuals, rss, addVec, sqxM, List.range_succ,
    decide_eq_false_iff_not, decide_eq_true_eq]

set_option maxHeartbeats 4000000 in
/-- Iteration 2 of the fit of `sqxM` to its own noise-free data from the
default initial guess: the zero step is rejected and the damping grows. -/
theorem sqStep1 : lmIter sqxM [1, 2] [1, 2] 1 (1 / 100000000) 1000000000000 (1 / 1000000)
    ⟨[1], 1 / 100⟩ = (⟨[1], 1 / 10⟩, false) := by
  norm_num [lmIter, proposeStep, solveLinear, gaussSolve, splitPivot, elimRow, dotL,
    dampen, ata, matAdd, outerM, zeroMat, entryQ, atr, negVec, jacobian, jacobianRow,
    fdStep_of_one_le, residuals, rss, addVec, sqxM, List.range_succ,
    decide_eq_false_iff_not, decide_eq_true_eq]

set_option maxHeartbeats 4000000 in
/-- Iteration 3 of the fit of `sqxM` to its own noise-free data from the
default initial guess: the zero step is rejected and the damping grows. -/
theorem sqStep2 : lmIter sqxM [1, 2] [1, 2] 1 (1 / 100000000) 1000000000000 (1 / 1000000)
    ⟨[1], 1 / 10⟩ = (⟨[1], 1⟩, false) := by
  norm_num [lmIter, proposeStep, solveLinear, gaussSolve, splitPivot, elimRow, dotL,
    dampen, ata, matAdd, outerM, zeroMat, entryQ, atr, negVec, jacobian, jacobianRow,
    fdStep_of_one_le, residuals, rss, addVec, sqxM, List.range_succ,
    decide_eq_false_iff_not, decide_eq_true_eq]

set_option maxHeartbeats 4000000 in
/-- Iteration 4 of the fit of `sqxM` to its own noise-free data from the
default initial guess: the zero step is rejected and the damping grows. -/
theorem sqStep3 : lmIter sqxM [1, 2] [1, 2] 1 (1 / 100000000) 1000000000000 (1 / 1000000)
    ⟨[1], 1⟩ = (⟨[1], 10⟩, false) := by
  norm_num [lmIter, proposeStep, solveLinear, gaussSolve, splitPivot, elimRow, dotL,
    dampen, ata, matAdd, outerM, zeroMat, entryQ, atr, negVec, jacobian, jacobianRow,
    fdStep_of_one_le, residuals, rss, addVec, sqxM, List.range_succ,
    decide_eq_false_iff_not, decide_eq_true_eq]

set_option maxHeartbeats 4000000 in
/-- Iteration 5 of the fit of `sqxM` to its own noise-free data from the
default initial guess: the zero step is rejected and the damping grows. -/
theorem sqStep4 : lmIter sqxM [1, 2] [1, 2] 1 (1 / 100000000) 1000000000000 (1 / 1000000)
    ⟨[1], 10⟩ = (⟨[1], 100⟩, false) := by
  norm_num [lmIter, proposeStep, solveLinear, gaussSolve, splitPivot, elimRow, dotL,
    dampen, ata, matAdd, outerM, zeroMat, entryQ, atr, negVec, jacobian, jacobianRow,
    fdStep_of_one_le, residuals, rss, addVec, sqxM, List.range_succ,
    decide_eq_false_iff_not, decide_eq_true_eq]

set_option maxHeartbeats 4000000 in
/-- Iteration 6 of the fit of `sqxM` to its own noise-free data from the
default initial guess: the zero step is rejected and the damping grows. -/
theorem sqStep5 : lmIter sqxM [1, 2] [1, 2] 1 (1 / 100000000) 1000000000000 (1 / 1000000)
    ⟨[1], 100⟩ = (⟨[1], 1000⟩, false) := by
  norm_num [lmIter, proposeStep, solveLinear, gaussSolve, splitPivot, elimRow, dotL,
    dampen, ata, matAdd, outerM, zeroMat, entryQ, atr, negVec, jacobian, jacobianRow,
    fdStep_of_one_le, residuals, rss, addVec, sqxM, List.range_succ,
    decide_eq_false_iff_not, decide_eq_true_eq]

set_option maxHeartbeats 4000000 in
/-- Iteration 7 of the fit of `sqxM` to its own noise-free data from the
default initial guess: the zero step is rejected and the damping grows. -/
theorem sqStep6 : lmIter sqxM [1, 2] [1, 2] 1 (1 / 100000000) 1000000000000 (1 / 1000000)
    ⟨[1], 1000⟩ = (⟨[1], 10000⟩, false) := by
  norm_num [lmIter, proposeStep, solveLinear, gaussSolve, splitPivot, elimRow, dotL,
    dampen, ata, matAdd, outerM, zeroMat, entryQ, atr, negVec, jacobian, jacobianRow,
    fdStep_of_one_le, residuals, rss, addVec, sqxM, List.range_succ,
    decide_eq_false_iff_not, decide_eq_true_eq]

set_option maxHeartbeats 4000000 in
/-- Iteration 8 of the fit of `sqxM` to its own noise-free data from the
default initial guess: the zero step is rejected and the damping grows. -/
theorem sqStep7 : lmIter sqxM [1, 2] [1, 2] 1 (1 / 100000000) 1000000000000 (1 / 1000000)
    ⟨[1], 10000⟩ = (⟨[1], 100000⟩, false) := by
  norm_num [lmIter, proposeStep, solveLinear, gaussSolve, splitPivot, elimRow, dotL,
    dampen, ata, matAdd, outerM, zeroMat, entryQ, atr, negVec, jacobian, jacobianRow,
    fdStep_of_one_le, residuals, rss, addVec, sqxM, List.range_succ,
    decide_eq_false_iff_not, decide_eq_true_eq]

set_option maxHeartbeats 4000000 in
/-- Iteration 9 of the fit of `sqxM` to its own noise-free data from the
default initial guess: the zero step is rejected and the damping grows. -/
theorem sqStep8 : lmIter sqxM [1, 2] [1, 2] 1 (1 / 100000000) 1000000000000 (1 / 1000000)
    ⟨[1], 100000⟩ = (⟨[1], 1000000⟩, false) := by
  norm_num [lmIter, proposeStep, solveLinear, gaussSolve, splitPivot, elimRow, dotL,
    dampen, ata, matAdd, outerM, zeroMat, entryQ, atr, negVec, jacobian, jacobianRow,
    fdStep_of_one_le, residuals, rss, addVec, sqxM, List.range_succ,
    decide_eq_false_iff_not, decide_eq_true_eq]

set_option maxHeartbeats 4000000 in
/-- Iteration 10 of the fit of `sqxM` to its own noise-free data from the
default initial guess: the zero step is rejected and the damping grows. -/
theorem sqStep9 : lmIter sqxM [1, 2] [1, 2] 1 (1 / 100000000) 1000000000000 (1 / 1000000)
    ⟨[1], 1000000⟩ = (⟨[1], 10000000⟩, false) := by
  norm_num [lmIter, proposeStep, solveLinear, gaussSolve, splitPivot, elimRow, dotL,
    dampen, ata, matAdd, outerM, zeroMat, entryQ, atr, negVec, jacobian, jacobianRow,
    fdStep_of_one_le, residuals, rss, addVec, sqxM, List.range_succ,
    decide_eq_false_iff_not, decide_eq_true_eq]

set_option maxHeartbeats 4000000 in
/-- Iteration 11 of the fit of `sqxM` to its own noise-free data from the
default initial guess: the zero step is rejected and the damping grows. -/
theorem sqStep10 : lmIter sqxM [1, 2] [1, 2] 1 (1 / 100000000) 1000000000000 (1 / 1000000)
    ⟨[1], 10000000⟩ = (⟨[1], 100000000⟩, false) := by
  norm_num [lmIter, proposeStep, solveLinear, gaussSolve, splitPivot, elimRow, dotL,
    dampen, ata, matAdd, outerM, zeroMat, entryQ, atr, negVec, jacobian, jacobianRow,
    fdStep_of_one_le, residuals, rss, addVec, sqxM, List.range_succ,
    decide_eq_false_iff_not, decide_eq_true_eq]

set_option maxHeartbeats 4000000 in
/-- Iteration 12 of the fit of `sqxM` to its own noise-free data from the
default initial guess: the zero step is rejected and the damping grows. -/
theorem sqStep11 : lmIter sqxM [1, 2] [1, 2] 1 (1 / 100000000) 1000000000000 (1 / 1000000)
    ⟨[1], 100000000⟩ = (⟨[1], 1000000000⟩, false) := by
  norm_num [lmIter, proposeStep, solveLinear, gaussSolve, splitPivot, elimRow, dotL,
    dampen, ata, matAdd, outerM, zeroMat, entryQ, atr, negVec, jacobian, jacobianRow,
    fdStep_of_one_le, residuals, rss, addVec, sqxM, List.range_succ,
    decide_eq_false_iff_not, decide_eq_true_eq]

set_option maxHeartbeats 4000000 in
/-- Iteration 13 of the fit of `sqxM` to its own noise-free data from the
default initial guess: the zero step is rejected and the damping grows. -/
theorem sqStep12 : lmIter sqxM [1, 2] [1, 2] 1 (1 / 100000000) 1000000000000 (1 / 1000000)
    ⟨[1], 1000000000⟩ = (⟨[1], 10000000000⟩, false) := by
  norm_num [lmIter, proposeStep, solveLinear, gaussSolve, splitPivot, elimRow, dotL,
    dampen, ata, matAdd, outerM, zeroMat, entryQ, atr, negVec, jacobian, jacobianRow,
    fdStep_of_one_le, residuals, rss, addVec, sqxM, List.range_succ,
    decide_eq_false_iff_not, decide_eq_true_eq]

set_option maxHeartbeats 4000000 in
/-- Iteration 14 of the fit of `sqxM` to its own noise-free data from the
default initial guess: the zero step is rejected and the damping grows. -/
theorem sqStep13 : lmIter sqxM [1, 2] [1, 2] 1 (1 / 100000000) 1000000000000 (1 / 1000000)
    ⟨[1], 10000000000⟩ = (⟨[1], 100000000000⟩, false) := by
  norm_num [lmIter, proposeStep, solveLinear, gaussSolve, splitPivot, elimRow, dotL,
    dampen, ata, matAdd, outerM, zeroMat, entryQ, atr, negVec, jacobian, jacobianRow,
    fdStep_of_one_le, residuals, rss, addVec, sqxM, List.range_succ,
    decide_eq_false_iff_not, decide_eq_true_eq]

set_option maxHeartbeats 4000000 in
/-- Iteration 15 of the fit of `sqxM` to its own noise-free data from the
default initial guess: the zero step is rejected and the damping grows. -/
theorem sqStep14 : lmIter sqxM [1, 2] [1, 2] 1 (1 / 100000000) 1000000000000 (1 / 1000000)
    ⟨[1], 100000000000⟩ = (⟨[1], 1000000000000⟩, false) := by
  norm_num [lmIter, proposeStep, solveLinear, gaussSolve, splitPivot, elimRow, dotL,
    dampen, ata, matAdd, outerM, zeroMat, entryQ, atr, negVec, jacobian, jacobianRow,
    fdStep_of_one_le, residuals, rss, addVec, sqxM, List.range_succ,
    decide_eq_false_iff_not, decide_eq_true_eq]

set_option maxHeartbeats 4000000 in
/-- Iteration 16 of the fit of `sqxM` to its own noise-free data from the
default initial guess: the zero step is rejected and the damping grows. -/
theorem sqStep15 : lmIter sqxM [1, 2] [1, 2] 1 (1 / 100000000) 1000000000000 (1 / 1000000)
    ⟨[1], 1000000000000⟩ = (⟨[1], 10000000000000⟩, true) := by
  norm_num [lmIter, proposeStep, solveLinear, gaussSolve, splitPivot, elimRow, dotL,
    dampen, ata, matAdd, outerM, zeroMat, entryQ, atr, negVec, jacobian, jacobianRow,
    fdStep_of_one_le, residuals, rss, addVec, sqxM, List.range_succ,
    decide_eq_false_iff_not, decide_eq_true_eq]

/-- The Levenberg-Marquardt loop on the `sqxM` scenario: sixteen rejected
iterations drive the damping over its bound and the loop converges at the
unchanged initial guess `[1]`. -/
theorem sq_loop : loopGo sqxM [1, 2] [1, 2] 1 (1 / 100000000) 1000000000000 (1 / 1000000)
    1000 ⟨[1], 1 / 1000⟩ = .converged [1] := by
  rw [show (1000:Nat) = 999+1 from rfl, loopGo_succ, sqStep0]
  dsimp only
  rw [if_neg Bool.false_ne_true]
  rw [show (999:Nat) = 998+1 from rfl, loopGo_succ, sqStep1]
  dsimp only
  rw [if_neg Bool.false_ne_true]
  rw [show (998:Nat) = 997+1 from rfl, loopGo_succ, sqStep2]
  dsimp only
  rw [if_neg Bool.false_ne_true]
  rw [show (997:Nat) = 996+1 from rfl, loopGo_succ, sqStep3]
  dsimp only
  rw [if_neg Bool.false_ne_true]
  rw [show (996:Nat) = 995+1 from rfl, loopGo_succ, sqStep4]
  dsimp only
  rw [if_neg Bool.false_ne_true]
  rw [show (995:Nat) = 994+1 from rfl, loopGo_succ, sqStep5]
  dsimp only
  rw [if_neg Bool.false_ne_true]
  rw [show (994:Nat) = 993+1 from rfl, loopGo_succ, sqStep6]
  dsimp only
  rw [if_neg Bool.false_ne_true]
  rw [show (993:Nat) = 992+1 from rfl, loopGo_succ, sqStep7]
  dsimp only
  rw [if_neg Bool.false_ne_true]
  rw [show (992:Nat) = 991+1 from rfl, loopGo_succ, sqStep8]
  dsimp only
  rw [if_neg Bool.false_ne_true]
  rw [show (991:Nat) = 990+1 from rfl, loopGo_succ, sqStep9]
  dsimp only
  rw [if_neg Bool.false_ne_true]
  rw [show (990:Nat) = 989+1 from rfl, loopGo_succ, sqStep10]
  dsimp only
  rw [if_neg Bool.false_ne_true]
  rw [show (989:Nat) = 988+1 from rfl, loopGo_succ, sqStep11]
  dsimp only
  rw [if_neg Bool.false_ne_true]
  rw [show (988:Nat) = 987+1 from rfl, loopGo_succ, sqStep12]
  dsimp only
  rw [if_neg Bool.false_ne_true]
  rw [show (987:Nat) = 986+1 from rfl, loopGo_succ, sqStep13]
  dsimp only
  rw [if_neg Bool.false_ne_true]
  rw [show (986:Nat) = 985+1 from rfl, loopGo_succ, sqStep14]
  dsimp only
  rw [if_neg Bool.false_ne_true]
  rw [show (985:Nat) = 984+1 from rfl, loopGo_succ, sqStep15]
  dsimp only
  rw [if_pos rfl]

set_option maxHeartbeats 4000000 in
/-- Covariance step of the `sqxM` scenario: the RSS at `[1]` is zero, so the
covariance is the zero matrix. -/
theorem sq_cov : covStep sqxM [1, 2] [1, 2] 1 (1 / 1000000) [1] = .ok [1] [[0]] := by
  norm_num [covStep, matIsId, matMul, matScale, invertCand, solveLinear, gaussSolve,
    splitPivot, elimRow, dotL, unitVec, ata, matAdd, outerM, zeroMat, entryQ,
    jacobian, jacobianRow, fdStep_of_one_le, residuals, rss, sqxM, List.range_succ,
    Nat.lt_one_iff]

/-- The full fit of `sqxM` to its own noise-free data `y = x` succeeds and
returns the parameter vector `[1]` with zero covariance. -/
theorem sq_fit : fit sqxM [1, 2] [1, 2] 1 none defaultConfig = .ok [1] [[0]] := by
  unfold fit
  rw [if_neg (by norm_num)]
  dsimp only [defaultConfig, initState, Option.getD, List.replicate]
  rw [sq_loop]
  dsimp only
  exact sq_cov

theorem sum_map_range (n : Nat) (f : Nat → ℚ) :
    ((List.range n).map f).sum = ∑ j in Finset.range n, f j := by
  induction n with
  | zero => simp
  | succ n ih =>
    rw [List.range_succ, List.map_append, List.sum_append, Finset.sum_range_succ, ih]
    simp

theorem getD_map_range {α : Type} (P j : Nat) (h : j < P) (f : Nat → α) (d : α) :
    ((List.range P).map f).getD j d = f j := by
  rw [List.getD_eq_getElem?_getD, List.getElem?_map, List.getElem?_range h]
  rfl

theorem toMat_apply (P : Nat) (M : List (List ℚ)) (i j : Fin P) :
    toMat P M i j = entryQ M i j := rfl

theorem entryQ_matMul (P : Nat) (X Y : List (List ℚ)) (j k : Nat) (hj : j < P) (hk : k < P) :
    entryQ (matMul P X Y) j k = ∑ l in Finset.range P, entryQ X j l * entryQ Y l k := by
  simp only [matMul, entryQ]
  rw [getD_map_range P j hj, getD_map_range P k hk, sum_map_range]

theorem entryQ_matScale (P : Nat) (s : ℚ) (B : List (List ℚ)) (j k : Nat)
    (hj : j < P) (hk : k < P) : entryQ (matScale P s B) j k = s * entryQ B j k := by
  simp only [matScale, entryQ]
  rw [getD_map_range P j hj, getD_map_range P k hk]

theorem entryQ_matAdd (P : Nat) (X Y : List (List ℚ)) (j k : Nat)
    (hj : j < P) (hk : k < P) : entryQ (matAdd P X Y) j k = entryQ X j k + entryQ Y j k := by
  simp only [matAdd, entryQ]
  rw [getD_map_range P j hj, getD_map_range P k hk]

theorem entryQ_outerM (P : Nat) (row : List ℚ) (j k : Nat)
    (hj : j < P) (hk : k < P) : entryQ (outerM P row) j k = row.getD j 0 * row.getD k 0 := by
  simp only [outerM, entryQ]
  rw [getD_map_range P j hj, getD_map_range P k hk]

theorem entryQ_zeroMat (P : Nat) (j k : Nat) (hj : j < P) (hk : k < P) :
    entryQ (zeroMat P) j k = 0 := by
  simp only [zeroMat, entryQ]
  rw [getD_map_range P j hj, getD_map_range P k hk]

theorem toMat_matMul (P : Nat) (X Y : List (List ℚ)) :
    toMat P (matMul P X Y) = toMat P X * toMat P Y := by
  ext i j
  rw [Matrix.mul_apply, toMat_apply, entryQ_matMul P X Y i j i.isLt j.isLt,
    ← Fin.sum_univ_eq_sum_range]
  rfl

theorem toMat_matScale (P : Nat) (s : ℚ) (B : List (List ℚ)) :
    toMat P (matScale P s B) = s • toMat P B := by
  ext i j
  rw [toMat_apply, entryQ_matScale P s B i j i.isLt j.isLt, Matrix.smul_apply,
    toMat_apply, smul_eq_mul]

theorem toMat_of_matIsId (P : Nat) (M : List (List ℚ)) (h : matIsId P M) :
    toMat P M = 1 := by
  ext i j
  rw [toMat_apply, h i i.isLt j j.isLt, Matrix.one_apply]
  by_cases hij : (i : Nat) = (j : Nat)
  · rw [if_pos hij, if_pos (Fin.ext hij)]
  · rw [if_neg hij, if_neg (fun hc => hij (congrArg Fin.val hc))]

theorem toMat_ata_nil (P : Nat) : toMat P (ata P ([] : List (List ℚ))) = 0 := by
  ext i j
  rw [show ata P ([] : List (List ℚ)) = zeroMat P from rfl, toMat_apply,
    entryQ_zeroMat P i j i.isLt j.isLt, Matrix.zero_apply]

theorem toMat_ata_cons (P : Nat) (row : List ℚ) (J : List (List ℚ)) :
    toMat P (ata P (row :: J)) = toMat P (outerM P row) + toMat P (ata P J) := by
  ext i j
  rw [show ata P (row :: J) = matAdd P (outerM P row) (ata P J) from rfl, toMat_apply,
    entryQ_matAdd P _ _ i j i.isLt j.isLt, Matrix.add_apply, toMat_apply, toMat_apply]

theorem ata_transpose (P : Nat) (J : List (List ℚ)) :
    (toMat P (ata P J)).transpose = toMat P (ata P J) := by
  induction J with
  | nil => rw [toMat_ata_nil, Matrix.transpose_zero]
  | cons row rest ih =>
    rw [toMat_ata_cons, Matrix.transpose_add, ih]
    congr 1
    ext i j
    rw [Matrix.transpose_apply, toMat_apply, toMat_apply,
      entryQ_outerM P row j i j.isLt i.isLt, entryQ_outerM P row i j i.isLt j.isLt, mul_comm]

theorem outer_quad (P : Nat) (row : List ℚ) (v : Fin P → ℚ) :
    Matrix.dotProduct v ((toMat P (outerM P row)).mulVec v) =
      (∑ l : Fin P, v l * row.getD l 0) * (∑ l : Fin P, v l * row.getD l 0) := by
  simp only [Matrix.mulVec, Matrix.dotProduct]
  rw [Finset.sum_mul_sum]
  apply Finset.sum_congr rfl
  intro i _
  rw [Finset.mul_sum]
  apply Finset.sum_congr rfl
  intro j _
  have he : toMat P (outerM P row) i j = row.getD i 0 * row.getD j 0 :=
    entryQ_outerM P row i j i.isLt j.isLt
  show v i * (toMat P (outerM P row) i j * v j) = v i * row.getD i 0 * (v j * row.getD j 0)
  rw [he]
  ring

theorem ata_psd (P : Nat) (J : List (List ℚ)) (v : Fin P → ℚ) :
    0 ≤ Matrix.dotProduct v ((toMat P (ata P J)).mulVec v) := by
  induction J with
  | nil =>
    rw [toMat_ata_nil, Matrix.zero_mulVec, Matrix.dotProduct_zero]
  | cons row rest ih =>
    rw [toMat_ata_cons, Matrix.add_mulVec, Matrix.dotProduct_add]
    refine add_nonneg ?_ ih
    rw [outer_quad P row v]
    exact mul_self_nonneg _

theorem rss_nonneg (model : ℚ → List ℚ → ℚ) (xs ys p : List ℚ) :
    0 ≤ rss model xs ys p := by
  unfold rss
  apply List.sum_nonneg
  intro x hx
  obtain ⟨r, _, rfl⟩ := List.mem_map.mp hx
  exact mul_self_nonneg r

theorem inv_symm_psd (P : Nat) (A B : Matrix (Fin P) (Fin P) ℚ) (hs : A.transpose = A)
    (hp : ∀ v, 0 ≤ Matrix.dotProduct v (A.mulVec v)) (hAB : A * B = 1) (hBA : B * A = 1) :
    B.transpose = B ∧ ∀ v, 0 ≤ Matrix.dotProduct v (B.mulVec v) := by
  have hBt : A * B.transpose = 1 := by
    have h := congrArg Matrix.transpose hBA
    rwa [Matrix.transpose_mul, Matrix.transpose_one, hs] at h
  have hB : B.transpose = B := by
    calc B.transpose = (B * A) * B.transpose := by rw [hBA, one_mul]
    _ = B * (A * B.transpose) := by rw [mul_assoc]
    _ = B := by rw [hBt, mul_one]
  refine ⟨hB, fun v => ?_⟩
  have h1 : A.mulVec (B.mulVec v) = v := by
    rw [Matrix.mulVec_mulVec, hAB, Matrix.one_mulVec]
  have h2 : Matrix.dotProduct v (B.mulVec v) =
      Matrix.dotProduct (B.mulVec v) (A.mulVec (B.mulVec v)) := by
    rw [h1, Matrix.dotProduct_comm]
  rw [h2]
  exact hp _

/-- Unfolding equation for the exhausted visited-parameters trace. -/
theorem visitedP_zero (model : ℚ → List ℚ → ℚ) (xs ys : List ℚ) (P : Nat)
    (tol lamMax eps : ℚ) (st : LMState) :
    visitedP model xs ys P tol lamMax eps 0 st = [st.p] := rfl

/-- A successful fit passed both length checks, both identity checks on the
candidate inverse of `J^T J`, and returned the scaled inverse as covariance. -/
theorem fit_ok_extract (model : ℚ → List ℚ → ℚ) (xs ys : List ℚ) (P : Nat)
    (init : Option (List ℚ)) (cfg : FitConfig) (p : List ℚ) (C : List (List ℚ))
    (h : fit model xs ys P init cfg = .ok p C) :
    P < xs.length ∧
      matIsId P (matMul P (ata P (jacobian model cfg.eps xs p))
        (invertCand P (ata P (jacobian model cfg.eps xs p)))) ∧
      matIsId P (matMul P (invertCand P (ata P (jacobian model cfg.eps xs p)))
        (ata P (jacobian model cfg.eps xs p))) ∧
      C = matScale P (rss model xs ys p / ((xs.length : ℚ) - (P : ℚ)))
        (invertCand P (ata P (jacobian model cfg.eps xs p))) := by
  unfold fit at h
  split at h
  · exact FitResult.noConfusion h
  · rename_i hlt
    split at h
    · rename_i q hL
      exact FitResult.noConfusion h
    · rename_i q hL
      unfold covStep at h
      split at h
      · exact FitResult.noConfusion h
      · rename_i hle
        split at h
        · rename_i hid
          injection h with h1 h2
          subst h1
          exact ⟨by omega, hid.1, hid.2, h2.symm⟩
        · exact FitResult.noConfusion h

/-- C5: whenever `fit` succeeds, the returned covariance matrix is symmetric
(it equals its transpose) and positive semi-definite (`v^T C v >= 0` for every
vector `v` of length `P`). -/
theorem covariance_symm_psd (model : ℚ → List ℚ → ℚ) (xs ys : List ℚ) (P : Nat)
    (init : Option (List ℚ)) (cfg : FitConfig) (p : List ℚ) (C : List (List ℚ))
    (h : fit model xs ys P init cfg = .ok p C) :
    (toMat P C).transpose = toMat P C ∧
      ∀ v : Fin P → ℚ, 0 ≤ Matrix.dotProduct v ((toMat P C).mulVec v) := by
  obtain ⟨hPN, hid1, hid2, hC⟩ := fit_ok_extract model xs ys P init cfg p C h
  have hAB : toMat P (ata P (jacobian model cfg.eps xs p)) *
      toMat P (invertCand P (ata P (jacobian model cfg.eps xs p))) = 1 := by
    rw [← toMat_matMul]; exact toMat_of_matIsId P _ hid1
  have hBA : toMat P (invertCand P (ata P (jacobian model cfg.eps xs p))) *
      toMat P (ata P (jacobian model cfg.eps xs p)) = 1 := by
    rw [← toMat_matMul]; exact toMat_of_matIsId P _ hid2
  obtain ⟨hBt, hBp⟩ := inv_symm_psd P _ _ (ata_transpose P (jacobian model cfg.eps xs p))
    (ata_psd P (jacobian model cfg.eps xs p)) hAB hBA
  have hs : 0 ≤ rss model xs ys p / ((xs.length : ℚ) - (P : ℚ)) := by
    apply div_nonneg (rss_nonneg model xs ys p)
    have : (P : ℚ) < (xs.length : ℚ) := by exact_mod_cast hPN
    linarith
  subst hC
  rw [toMat_matScale]
  constructor
  · rw [Matrix.transpose_smul, hBt]
  · intro v
    rw [Matrix.smul_mulVec_assoc, Matrix.dotProduct_smul, smul_eq_mul]
    exact mul_nonneg hs (hBp v)

/-- C5 witness: the successful fit of `sqxM` has a symmetric positive
semi-definite covariance, checked at the vector `vOne`. -/
theorem covariance_symm_psd_witness :
    fit sqxM [1, 2] [1, 2] 1 none defaultConfig = .ok [1] [[0]] ∧
    (toMat 1 [[0]]).transpose = toMat 1 [[0]] ∧
    0 ≤ Matrix.dotProduct vOne ((toMat 1 [[0]]).mulVec vOne) :=
  ⟨sq_fit, (covariance_symm_psd sqxM [1, 2] [1, 2] 1 none defaultConfig [1] [[0]] sq_fit).1,
    (covariance_symm_psd sqxM [1, 2] [1, 2] 1 none defaultConfig [1] [[0]] sq_fit).2 vOne⟩

/-- C2 (amended): with noise-free data the fit need not recover the true
parameters when several parameter vectors fit exactly; what does hold is that
whenever `fit` succeeds at a parameter vector with zero residual sum of squares,
every entry of the returned covariance matrix is exactly zero. -/
theorem zero_rss_zero_cov (model : ℚ → List ℚ → ℚ) (xs ys : List ℚ) (P : Nat)
    (init : Option (List ℚ)) (cfg : FitConfig) (p : List ℚ) (C : List (List ℚ))
    (h : fit model xs ys P init cfg = .ok p C) (hz : rss model xs ys p = 0) :
    ∀ j, j < P → ∀ k, k < P → entryQ C j k = 0 := by
  obtain ⟨hPN, hid1, hid2, hC⟩ := fit_ok_extract model xs ys P init cfg p C h
  subst hC
  intro j hj k hk
  rw [entryQ_matScale P _ _ j k hj hk, hz, zero_div, zero_mul]

/-- C2 witness: the fit of `sqxM` to its own data terminates at `[1]` with zero
residual sum of squares, and its covariance entry is exactly zero. -/
theorem zero_rss_zero_cov_witness :
    fit sqxM [1, 2] [1, 2] 1 none defaultConfig = .ok [1] [[0]] ∧
    rss sqxM [1, 2] [1, 2] [1] = 0 ∧ entryQ [[0]] 0 0 = 0 := by
  have hz : rss sqxM [1, 2] [1, 2] [1] = 0 := by norm_num [rss, residuals, sqxM]
  exact ⟨sq_fit, hz, zero_rss_zero_cov sqxM [1, 2] [1, 2] 1 none defaultConfig [1] [[0]]
    sq_fit hz 0 (by norm_num) 0 (by norm_num)⟩

/-- C2 (counterexample): the one-parameter model `y = p^2 * x` with noise-free
data generated from the true parameter `-1` is fit exactly by `p = 1` as well;
`fit` (default all-ones initial guess) returns `[1]`, which is not within the
convergence tolerance of the true parameter `-1`, refuting the claim that `fit`
recovers `true_params` for every model and every true parameter vector. -/
theorem fit_not_recover_true_cex :
    sqxM 1 [-1] = 1 ∧ sqxM 2 [-1] = 2 ∧
    fit sqxM [1, 2] [1, 2] 1 none defaultConfig = .ok [1] [[0]] ∧
    ¬ |(1 : ℚ) - (-1)| ≤ defaultConfig.tol :=
  ⟨by norm_num [sqxM], by norm_num [sqxM], sq_fit, by norm_num [defaultConfig]⟩

set_option maxHeartbeats 4000000 in
/-- The RSS after the second iteration of the concrete linear scenario is tiny. -/
theorem lin_rss2_small : rss linM X4 Y4
    [754624523301349 / 628853728578049, 943280484259249 / 628853728578049] ≤
    1 / 10000000000 := by
  norm_num [rss, residuals, X4, Y4, linM, lin_func]

/-- C1: on the spec's concrete scenario (linear model, `x = [0,1,2,3]`,
`y = [1.5, 2.7, 3.9, 5.1]` lying exactly on the line `m = 1.2`, `c = 1.5`), the
parameter vector reported by `fit` with the default configuration satisfies
`(m - 1.2)^2 <= 1e-10` and `(c - 1.5)^2 <= 1e-10` (so both parameters are
recovered to within `1e-5`), and the residual sum of squares at the reported
parameters is at most `1e-10`. -/
theorem lin_fit_concrete_scenario :
    ∃ q, reported (fit linM X4 Y4 2 none defaultConfig) = some q ∧
      (q.getD 0 0 - 6 / 5) ^ 2 ≤ 1 / 10000000000 ∧
      (q.getD 1 0 - 3 / 2) ^ 2 ≤ 1 / 10000000000 ∧
      rss linM X4 Y4 q ≤ 1 / 10000000000 := by
  have h1 : ¬ (X4.length < 2) := by norm_num [X4]
  have h2 : ¬ (X4.length ≤ 2) := by norm_num [X4]
  have hrep := reported_fit linM X4 Y4 2 none defaultConfig h1 h2
  dsimp only [defaultConfig, initState, Option.getD, List.replicate] at hrep
  rw [show (1000 : Nat) = 999 + 1 from rfl, loopGo_succ, lmLin1] at hrep
  dsimp only at hrep
  rw [if_neg Bool.false_ne_true] at hrep
  rw [show (999 : Nat) = 998 + 1 from rfl, loopGo_succ, lmLin2] at hrep
  dsimp only at hrep
  rw [if_neg Bool.false_ne_true] at hrep
  have hmono := loopGo_rss_le linM X4 Y4 2 (1 / 100000000) 1000000000000 (1 / 1000000) 998
    ⟨[754624523301349 / 628853728578049, 943280484259249 / 628853728578049], 1 / 100000⟩
  dsimp only at hmono
  set q : List ℚ := resParams (loopGo linM X4 Y4 2 (1 / 100000000) 1000000000000
    (1 / 1000000) 998 ⟨[754624523301349 / 628853728578049, 943280484259249 / 628853728578049],
      1 / 100000⟩) with hq
  have hb : rss linM X4 Y4 q ≤ 1 / 10000000000 := le_trans hmono lin_rss2_small
  refine ⟨q, hrep, ?_, ?_, hb⟩
  · rw [rss_linM_eq q] at hb
    nlinarith [hb, sq_nonneg (q.getD 1 0 - 3 / 2),
      sq_nonneg (2 * q.getD 0 0 + q.getD 1 0 - 39 / 10)]
  · rw [rss_linM_eq q] at hb
    nlinarith [hb, sq_nonneg (q.getD 0 0 - 6 / 5),
      sq_nonneg (2 * q.getD 0 0 + q.getD 1 0 - 39 / 10)]

/-- C3: called with fewer samples than parameters, `fit` fails immediately with
`InsufficientDataError`, before any iteration of the solver: the result is the
error produced by the precheck, independent of the loop. -/
theorem insufficient_data_precheck (model : ℚ → List ℚ → ℚ) (xs ys : List ℚ) (P : Nat)
    (init : Option (List ℚ)) (cfg : FitConfig) (h : xs.length < P) :
    fit model xs ys P init cfg = .err (.insufficientData xs.length P) := by
  unfold fit
  rw [if_pos h]

/-- C3 witness: one sample, two parameters. -/
theorem insufficient_data_precheck_witness :
    ([(0 : ℚ)].length < 2) ∧
      fit linM [0] [1] 2 none defaultConfig = .err (.insufficientData 1 2) :=
  ⟨by norm_num, insufficient_data_precheck linM [0] [1] 2 none defaultConfig (by norm_num)⟩

/-- C4 (amended): with exactly as many samples as parameters (`N = P`), `fit`
never succeeds: estimating the residual variance `RSS/(N-P)` is impossible, so
the call ends in `InsufficientDataError` (when the iteration converges) or in
`ConvergenceError` (when the iteration cap is exhausted). -/
theorem exact_determined_never_succeeds (model : ℚ → List ℚ → ℚ) (xs ys : List ℚ) (P : Nat)
    (init : Option (List ℚ)) (cfg : FitConfig) (h : xs.length = P) :
    fit model xs ys P init cfg = .err (.insufficientData xs.length P) ∨
      ∃ q, fit model xs ys P init cfg = .err (.convergenceError q (rss model xs ys q)) :=
  fit_NP_cases model xs ys P init cfg h

/-- C4 (counterexample): a noise-free exactly determined problem (`N = P = 2`,
data on the line `m = 1.2`, `c = 1.5`) on which `fit` does not succeed,
refuting the claim that `fit` succeeds for every noise-free `N = P` problem. -/
theorem exact_determined_not_ok_cex :
    lin_func 0 (6 / 5) (3 / 2) = 3 / 2 ∧ lin_func 1 (6 / 5) (3 / 2) = 27 / 10 ∧
    isOk (fit linM [0, 1] [3 / 2, 27 / 10] 2 none defaultConfig) = false := by
  refine ⟨by norm_num [lin_func], by norm_num [lin_func], ?_⟩
  rcases fit_NP_cases linM [0, 1] [3 / 2, 27 / 10] 2 none defaultConfig (by norm_num)
    with h | ⟨q, h⟩ <;> rw [h] <;> rfl

/-- C4 witness: the amended claim applied to the concrete `N = P = 2` input. -/
theorem exact_determined_never_succeeds_witness :
    ([(0 : ℚ), 1].length = 2) ∧
      isOk (fit linM [0, 1] [3 / 2, 27 / 10] 2 none defaultConfig) = false := by
  refine ⟨by norm_num, ?_⟩
  rcases exact_determined_never_succeeds linM [0, 1] [3 / 2, 27 / 10] 2 none defaultConfig
    (by norm_num) with h | ⟨q, h⟩ <;> rw [h] <;> rfl

/-- C6: `fit` is deterministic and pure: two calls with identical model,
identical sample sequences, identical initial guess and identical configuration
return identical results, and the model functions are themselves pure and
deterministic.  (In this embedding every routine is a pure function of its
arguments, so no global state or I/O can be involved by construction.) -/
theorem fit_deterministic_pure :
    (∀ (model model2 : ℚ → List ℚ → ℚ) (xs xs2 ys ys2 : List ℚ) (P : Nat)
      (init init2 : Option (List ℚ)) (cfg cfg2 : FitConfig),
      model = model2 → xs = xs2 → ys = ys2 → init = init2 → cfg = cfg2 →
      fit model xs ys P init cfg = fit model2 xs2 ys2 P init2 cfg2) ∧
    (∀ x x2 m m2 c c2 : ℚ, x = x2 → m = m2 → c = c2 →
      lin_func x m c = lin_func x2 m2 c2) ∧
    (∀ x x2 a a2 b b2 c c2 : ℚ, x = x2 → a = a2 → b = b2 → c = c2 →
      quad_func x a b c = quad_func x2 a2 b2 c2) := by
  refine ⟨?_, ?_, ?_⟩
  · intro model model2 xs xs2 ys ys2 P init init2 cfg cfg2 h1 h2 h3 h4 h5
    subst h1; subst h2; subst h3; subst h4; subst h5; rfl
  · intro x x2 m m2 c c2 h1 h2 h3
    subst h1; subst h2; subst h3; rfl
  · intro x x2 a a2 b b2 c c2 h1 h2 h3 h4
    subst h1; subst h2; subst h3; subst h4; rfl

/-- C6 witness: determinism instantiated at the concrete linear scenario. -/
theorem fit_deterministic_pure_witness :
    fit linM X4 Y4 2 none defaultConfig = fit linM X4 Y4 2 none defaultConfig ∧
      lin_func 1 2 3 = lin_func 1 2 3 :=
  ⟨fit_deterministic_pure.1 linM linM X4 X4 Y4 Y4 2 none none defaultConfig defaultConfig
    rfl rfl rfl rfl rfl,
   fit_deterministic_pure.2.1 1 1 2 2 3 3 rfl rfl rfl⟩

/-- C7: in every iteration, the candidate step is accepted (parameters become
`p + d` and the damping is divided by 10) exactly when it decreases the RSS;
otherwise it is rejected, the damping is multiplied by 10 and the parameters
are unchanged.  Consequently the RSS of the current parameter vector never
increases, neither across one iteration nor across the whole loop. -/
theorem step_accept_iff_decrease :
    (∀ (model : ℚ → List ℚ → ℚ) (xs ys : List ℚ) (P : Nat) (tol lamMax eps : ℚ)
      (st : LMState) (d : List ℚ), proposeStep model xs ys P eps st = some d →
      ((rss model xs ys (addVec st.p d) < rss model xs ys st.p →
          (lmIter model xs ys P tol lamMax eps st).1 = ⟨addVec st.p d, st.lam / 10⟩) ∧
        (¬ rss model xs ys (addVec st.p d) < rss model xs ys st.p →
          (lmIter model xs ys P tol lamMax eps st).1 = ⟨st.p, st.lam * 10⟩))) ∧
    (∀ (model : ℚ → List ℚ → ℚ) (xs ys : List ℚ) (P : Nat) (tol lamMax eps : ℚ)
      (st : LMState), rss model xs ys (lmIter model xs ys P tol lamMax eps st).1.p ≤
        rss model xs ys st.p) ∧
    (∀ (model : ℚ → List ℚ → ℚ) (xs ys : List ℚ) (P : Nat) (tol lamMax eps : ℚ)
      (n : Nat) (st : LMState),
      rss model xs ys (resParams (loopGo model xs ys P tol lamMax eps n st)) ≤
        rss model xs ys st.p) := by
  refine ⟨?_, lmIter_rss_le, loopGo_rss_le⟩
  intro model xs ys P tol lamMax eps st d hd
  unfold lmIter
  rw [hd]
  constructor
  · intro hlt
    dsimp only
    rw [if_pos hlt]
  · intro hge
    dsimp only
    rw [if_neg hge]

set_option maxHeartbeats 4000000 in
/-- The concrete candidate step at the start of the linear scenario. -/
theorem lin_propose : proposeStep linM X4 Y4 2 (1 / 1000000) ⟨[1, 1], 1 / 1000⟩ =
    some [502900 / 2514007, 1255600 / 2514007] := by
  norm_num [proposeStep, solveLinear, gaussSolve, splitPivot, elimRow, dotL,
    dampen, ata, matAdd, outerM, zeroMat, entryQ, atr, negVec, jacobian, jacobianRow,
    fdStep_of_one_le, residuals, X4, Y4, linM, lin_func, List.range_succ]

set_option maxHeartbeats 4000000 in
/-- That concrete candidate step strictly decreases the RSS. -/
theorem lin_step_decreases : rss linM X4 Y4
    (addVec [1, 1] [502900 / 2514007, 1255600 / 2514007]) < rss linM X4 Y4 [1, 1] := by
  norm_num [rss, residuals, addVec, X4, Y4, linM, lin_func]

/-- C7 witness: the first iteration of the linear scenario accepts its step. -/
theorem step_accept_iff_decrease_witness :
    proposeStep linM X4 Y4 2 (1 / 1000000) ⟨[1, 1], 1 / 1000⟩ =
      some [502900 / 2514007, 1255600 / 2514007] ∧
    rss linM X4 Y4 (addVec [1, 1] [502900 / 2514007, 1255600 / 2514007]) <
      rss linM X4 Y4 [1, 1] ∧
    (lmIter linM X4 Y4 2 (1 / 100000000) 1000000000000 (1 / 1000000)
      ⟨[1, 1], 1 / 1000⟩).1 =
      ⟨addVec [1, 1] [502900 / 2514007, 1255600 / 2514007], 1 / 1000 / 10⟩ :=
  ⟨lin_propose, lin_step_decreases,
    (step_accept_iff_decrease.1 linM X4 Y4 2 (1 / 100000000) 1000000000000 (1 / 1000000)
      ⟨[1, 1], 1 / 1000⟩ [502900 / 2514007, 1255600 / 2514007] lin_propose).1
      lin_step_decreases⟩

/-- One iteration of the linear scenario with iteration cap 1 exhausts the cap. -/
theorem lin_loop_one : loopGo linM X4 Y4 2 (1 / 100000000) 1000000000000 (1 / 1000000) 1
    ⟨[1, 1], 1 / 1000⟩ = .maxIter [3016907 / 2514007, 3769607 / 2514007] := by
  rw [show (1 : Nat) = 0 + 1 from rfl, loopGo_succ, lmLin1]
  dsimp only
  rw [if_neg Bool.false_ne_true, loopGo_zero]

/-- The parameters visited in that one-iteration run. -/
theorem lin_visited_one : visitedP linM X4 Y4 2 (1 / 100000000) 1000000000000 (1 / 1000000) 1
    ⟨[1, 1], 1 / 1000⟩ = [[1, 1], [3016907 / 2514007, 3769607 / 2514007]] := by
  rw [show (1 : Nat) = 0 + 1 from rfl, visitedP_succ, lmLin1]
  dsimp only
  rw [if_neg Bool.false_ne_true, visitedP_zero]

/-- C8: whenever the iteration loop exhausts the iteration cap, `fit` fails with
`ConvergenceError`, and the parameter vector attached to the error is the best
found: its RSS is at most the RSS of every parameter vector the loop visited. -/
theorem maxiter_reports_best (model : ℚ → List ℚ → ℚ) (xs ys : List ℚ) (P : Nat)
    (init : Option (List ℚ)) (cfg : FitConfig) (q : List ℚ)
    (hN : ¬ xs.length < P)
    (hL : loopGo model xs ys P cfg.tol cfg.lamMax cfg.eps cfg.maxIter
      (initState P init cfg.lam0) = .maxIter q) :
    fit model xs ys P init cfg = .err (.convergenceError q (rss model xs ys q)) ∧
      ∀ r ∈ visitedP model xs ys P cfg.tol cfg.lamMax cfg.eps cfg.maxIter
        (initState P init cfg.lam0), rss model xs ys q ≤ rss model xs ys r := by
  constructor
  · unfold fit
    rw [if_neg hN, hL]
  · intro r hr
    have h := loopGo_best model xs ys P cfg.tol cfg.lamMax cfg.eps cfg.maxIter
      (initState P init cfg.lam0) r hr
    rw [hL] at h
    exact h

/-- C8 witness: with the iteration cap set to 1 the linear scenario exhausts the
cap; `fit` reports `ConvergenceError` with the parameters of the single
accepted step, whose RSS is no worse than the initial guess's. -/
theorem maxiter_reports_best_witness :
    (¬ X4.length < 2) ∧
    fit linM X4 Y4 2 none cfgOne = .err (.convergenceError
      [3016907 / 2514007, 3769607 / 2514007]
      (rss linM X4 Y4 [3016907 / 2514007, 3769607 / 2514007])) ∧
    rss linM X4 Y4 [3016907 / 2514007, 3769607 / 2514007] ≤ rss linM X4 Y4 [1, 1] := by
  have hN : ¬ X4.length < 2 := by norm_num [X4]
  have hc := maxiter_reports_best linM X4 Y4 2 none cfgOne
    [3016907 / 2514007, 3769607 / 2514007] hN lin_loop_one
  refine ⟨hN, hc.1, hc.2 [1, 1] ?_⟩
  show [1, 1] ∈ visitedP linM X4 Y4 2 (1 / 100000000) 1000000000000 (1 / 1000000) 1
    ⟨[1, 1], 1 / 1000⟩
  rw [lin_visited_one]
  exact List.mem_cons_self _ _

/-- C9: omitting the initial parameter sequence behaves identically to passing
the all-ones vector of length `P` explicitly. -/
theorem default_init_all_ones (model : ℚ → List ℚ → ℚ) (xs ys : List ℚ) (P : Nat)
    (cfg : FitConfig) :
    fit model xs ys P none cfg = fit model xs ys P (some (List.replicate P 1)) cfg := rfl

/-- C10: the quadratic model with leading coefficient zero coincides with the
linear model. -/
theorem quad_zero_eq_lin (x m c : ℚ) : quad_func x 0 m c = lin_func x m c := by
  unfold quad_func lin_func
  ring
